import Mathlib

/-!
Verification development for the rdtools energy-normalization module
(`rdtools/normalization.py`).

Shallow embedding choices:
* Timestamps are `Nat` ticks; a pandas frequency / DateOffset is the tick
  width of one interval (`Nat`).
* A pandas `Series` is a finite index (list of timestamps), a valuation
  `Nat → Option ℚ` (where `none` models a NaN / non-finite entry — the
  valuation is only meaningful on timestamps of the index), and the
  optional explicit frequency attribute of its index (`index.freq`).
* Binary arithmetic between two series aligns on the union of the two
  indices (pandas outer-join alignment); positions present in only one
  operand get a NaN (`none`) entry.  Division by zero produces a
  non-finite value in pandas (inf or NaN), modeled here as `none`.
* `Series.resample(freq).sum()` bins the index into intervals of width
  `freq` (left-closed, left-labeled, origin at the first timestamp floored
  to a multiple of `freq`) and sums the finite values in each bin
  (pandas `sum` skips NaN; an all-NaN or empty bin sums to 0).
* `pd.infer_freq` returns the common gap when the index has at least three
  strictly increasing equally spaced timestamps, and no result otherwise
  (pandas either returns `None` or raises for shorter/irregular indexes;
  both make the subsequent `resample` call fail, modeled as the
  `ambiguousFrequency` error).
-/

/-- A pandas-style time-indexed numeric series.  `none` values model NaN. -/
structure Series where
  idx : List Nat
  val : Nat → Option ℚ
  freq : Option Nat

theorem Series.ext' {a b : Series} (h1 : a.idx = b.idx) (h2 : a.val = b.val)
    (h3 : a.freq = b.freq) : a = b := by
  cases a; cases b; cases h1; cases h2; cases h3; rfl

/-- Scalar multiplication `c * s` (elementwise, index and freq preserved). -/
def smulSeries (c : ℚ) (s : Series) : Series :=
  { idx := s.idx, val := fun t => (s.val t).map (fun v => c * v), freq := s.freq }

/-- Scalar division `s / c` (elementwise, index and freq preserved). -/
def divScalarSeries (s : Series) (c : ℚ) : Series :=
  { idx := s.idx, val := fun t => (s.val t).map (fun v => v / c), freq := s.freq }

/-- Scalar subtraction `s - c` (elementwise). -/
def subScalarSeries (s : Series) (c : ℚ) : Series :=
  { idx := s.idx, val := fun t => (s.val t).map (fun v => v - c), freq := s.freq }

/-- Scalar addition `c + s` (elementwise). -/
def addScalarSeries (c : ℚ) (s : Series) : Series :=
  { idx := s.idx, val := fun t => (s.val t).map (fun v => c + v), freq := s.freq }

/-- Insert a timestamp into a sorted duplicate-free list, keeping it sorted
and duplicate-free. -/
def insertS (x : Nat) : List Nat → List Nat
  | [] => [x]
  | y :: ys => if x < y then x :: y :: ys else if x = y then y :: ys else y :: insertS x ys

/-- Sorted duplicate-free union of two indices (pandas outer-join index). -/
def unionIdx (xs ys : List Nat) : List Nat :=
  (xs ++ ys).foldr insertS []

/-- Elementwise product of two series with pandas outer-join alignment:
the result is indexed by the union of the indices, positions missing from
either operand are NaN. -/
def mulSeries (a b : Series) : Series :=
  { idx := unionIdx a.idx b.idx
    val := fun t =>
      if t ∈ a.idx ∧ t ∈ b.idx then
        match a.val t, b.val t with
        | some x, some y => some (x * y)
        | _, _ => none
      else none
    freq := none }

/-- Elementwise quotient of two series with pandas outer-join alignment:
the result is indexed by the union of the indices; positions missing from
either operand, NaN operands, and zero denominators (non-finite quotients
in pandas) are NaN. -/
def seriesDiv (a b : Series) : Series :=
  { idx := unionIdx a.idx b.idx
    val := fun t =>
      if t ∈ a.idx ∧ t ∈ b.idx then
        match a.val t, b.val t with
        | some x, some y => if y = 0 then none else some (x / y)
        | _, _ => none
      else none
    freq := none }

/-- PVWatts v5 module model DC power (`pvwatts_dc_power` in
`normalization.py`): `dc_power = P_stc * poa_global / G_stc`, multiplied by
the temperature factor `1 + gamma_pdc * (T_cell - T_stc)` only when both
`T_cell` and `gamma_pdc` are supplied. -/
def pvwatts_dc_power (poa_global : Series) (P_stc : ℚ) (T_cell : Option Series)
    (G_stc : ℚ) (T_stc : ℚ) (gamma_pdc : Option ℚ) : Series :=
  let dc_power := divScalarSeries (smulSeries P_stc poa_global) G_stc
  match T_cell, gamma_pdc with
  | some tc, some g =>
      mulSeries dc_power (addScalarSeries 1 (smulSeries g (subScalarSeries tc T_stc)))
  | _, _ => dc_power

/-- All consecutive gaps in the list equal `d` (each element is the
previous plus `d`). -/
def gapsEqual (d : Nat) : List Nat → Bool
  | t0 :: t1 :: rest => t1 = t0 + d && gapsEqual d (t1 :: rest)
  | _ => true

/-- `pd.infer_freq`: the common positive gap of an index of at least three
strictly increasing equally spaced timestamps, otherwise no result. -/
def pd_infer_freq (idx : List Nat) : Option Nat :=
  match idx with
  | t0 :: t1 :: t2 :: rest =>
      if t0 < t1 && gapsEqual (t1 - t0) (t0 :: t1 :: t2 :: rest) then some (t1 - t0)
      else none
  | _ => none

/-- Frequency resolution used by both normalization entry points
(lines 88–91 and 187–190 of `normalization.py`): the energy index's
explicit frequency if set, else the inferred frequency. -/
def resolveFreq (energy : Series) : Option Nat :=
  match energy.freq with
  | none => pd_infer_freq energy.idx
  | some f => some f

/-- Minimum of a list of timestamps. -/
def listMin : List Nat → Option Nat
  | [] => none
  | x :: xs => match listMin xs with | none => some x | some m => some (min x m)

/-- Maximum of a list of timestamps. -/
def listMax : List Nat → Option Nat
  | [] => none
  | x :: xs => match listMax xs with | none => some x | some m => some (max x m)

/-- Sum of the finite values of `s` at timestamps in `[b, b + freq)`
(pandas `sum` skips NaN; empty bins sum to 0). -/
def binSum (s : Series) (b freq : Nat) : ℚ :=
  (s.idx.filter (fun u => decide (b ≤ u) && decide (u < b + freq))).foldr
    (fun u acc => (s.val u).getD 0 + acc) 0

/-- `s.resample(freq).sum()`: left-closed left-labeled bins of width `freq`
covering the span of `s.idx`, starting at the first timestamp floored to a
multiple of `freq`; each bin carries the sum of the finite values it
contains. -/
def resampleSum (s : Series) (freq : Nat) : Series :=
  match listMin s.idx, listMax s.idx with
  | some lo, some hi =>
      let start := lo / freq * freq
      let bins := (List.range ((hi - start) / freq + 1)).map (fun i => start + i * freq)
      { idx := bins
        val := fun t => if t ∈ bins then some (binSum s t freq) else none
        freq := some freq }
  | _, _ => { idx := [], val := fun _ => none, freq := some freq }

/-- Keyword-argument record for `pvwatts_dc_power`, as passed through
`normalize_with_pvwatts(energy, pvwatts_kws)`. -/
structure PVWattsKws where
  poa_global : Series
  P_stc : ℚ
  T_cell : Option Series
  G_stc : ℚ
  T_stc : ℚ
  gamma_pdc : Option ℚ

/-- `pvwatts_dc_power(**pvwatts_kws)`. -/
def pvwattsOf (k : PVWattsKws) : Series :=
  pvwatts_dc_power k.poa_global k.P_stc k.T_cell k.G_stc k.T_stc k.gamma_pdc

/-- Sandia cell-temperature / air-mass model selector passed to the System
Descriptor's air-mass operation (`model='kastenyoung1989'` in the source). -/
inductive AirmassModel
  | kastenyoung1989
  | young1994
  | simple
deriving DecidableEq

/-- Module spectral/angular response constants carried by the System
Descriptor (`pvlib_pvsystem.module`), treated as abstract data. -/
structure ModuleParams where
  tag : Nat

/-- Solar-position frame: zenith and azimuth columns. -/
structure SolarPosition where
  zenith : Series
  azimuth : Series

/-- Transposed plane-of-array irradiance frame: direct, diffuse and total
columns. -/
structure TotalIrradiance where
  poa_direct : Series
  poa_diffuse : Series
  poa_global : Series

/-- Air-mass frame: absolute air-mass column. -/
structure Airmass where
  airmass_absolute : Series

/-- Cell-temperature frame: cell-temperature column. -/
structure CellTemp where
  temp_cell : Series

/-- Meteorological frame (`poa_global` argument of `sapm_dc_power`):
timestamp index and the DNI, GHI, DHI, Wind Speed and Temperature columns. -/
structure MeteoFrame where
  idx : List Nat
  DNI : Series
  GHI : Series
  DHI : Series
  WindSpeed : Series
  Temperature : Series

/-- The System Descriptor (pvlib `LocalizedPVSystem`): an injected
capability object exposing the external modeling operations used by
`sapm_dc_power`; each operation is an abstract function. -/
structure PVSystem where
  module : ModuleParams
  get_solarposition : List Nat → SolarPosition
  get_poa_global : Series → Series → Series → Series → Series → TotalIrradiance
  get_aoi : Series → Series → Series
  get_airmass : SolarPosition → AirmassModel → Airmass
  sapm_effective_poa_global : Series → Series → Series → Series → ModuleParams → ℚ → Series
  sapm_celltemp : Series → Series → Series → CellTemp
  pvwatts_dc : Series → Series → Series

/-- `sapm_dc_power(pvlib_pvsystem, poa_global)`: the SAPM modeling chain of
`normalization.py` lines 121–154, translated call for call. -/
def sapm_dc_power (pvlib_pvsystem : PVSystem) (poa_global : MeteoFrame) : Series :=
  let solar_position := pvlib_pvsystem.get_solarposition poa_global.idx
  let total_irradiance := pvlib_pvsystem.get_poa_global solar_position.zenith
      solar_position.azimuth poa_global.DNI poa_global.GHI poa_global.DHI
  let aoi := pvlib_pvsystem.get_aoi solar_position.zenith solar_position.azimuth
  let airmass := pvlib_pvsystem.get_airmass solar_position AirmassModel.kastenyoung1989
  let airmass_absolute := airmass.airmass_absolute
  let effective_poa := pvlib_pvsystem.sapm_effective_poa_global
      total_irradiance.poa_direct total_irradiance.poa_diffuse
      airmass_absolute aoi pvlib_pvsystem.module 1
  let temp_cell := pvlib_pvsystem.sapm_celltemp total_irradiance.poa_global
      poa_global.WindSpeed poa_global.Temperature
  let dc_power := pvlib_pvsystem.pvwatts_dc effective_poa temp_cell.temp_cell
  dc_power

/-- The seven-stage SAPM pipeline exactly as §4.2 of the specification
words it: solar position from the frame's index; plane-of-array irradiance
from solar position and the three irradiance components; angle of
incidence from solar position; absolute air mass via Kasten–Young 1989;
effective plane-of-array irradiance normalized to a reference of 1 from
transposed direct/diffuse irradiance, air mass, angle of incidence and the
module response; cell temperature from total irradiance, wind speed and
ambient temperature; DC power from effective irradiance and cell
temperature.  Each stage's output feeds the next. -/
def sapm_pipeline_spec (descriptor : PVSystem) (frame : MeteoFrame) : Series :=
  let stage1 := descriptor.get_solarposition frame.idx
  let stage2 := descriptor.get_poa_global stage1.zenith stage1.azimuth
      frame.DNI frame.GHI frame.DHI
  let stage3 := descriptor.get_aoi stage1.zenith stage1.azimuth
  let stage4 := (descriptor.get_airmass stage1 AirmassModel.kastenyoung1989).airmass_absolute
  let stage5 := descriptor.sapm_effective_poa_global stage2.poa_direct
      stage2.poa_diffuse stage4 stage3 descriptor.module 1
  let stage6 := (descriptor.sapm_celltemp stage2.poa_global
      frame.WindSpeed frame.Temperature).temp_cell
  descriptor.pvwatts_dc stage5 stage6

/-- Keyword-argument record for `sapm_dc_power`, as passed through
`normalize_with_sapm(energy, sapm_kws)`. -/
structure SAPMKws where
  pvlib_pvsystem : PVSystem
  poa_global : MeteoFrame

/-- `sapm_dc_power(**sapm_kws)`. -/
def sapmOf (k : SAPMKws) : Series :=
  sapm_dc_power k.pvlib_pvsystem k.poa_global

/-- Failure modes of the normalization entry points.  `ambiguousFrequency`
models the fatal condition raised when the energy index has neither an
explicit nor an inferable frequency. -/
inductive NormError
  | ambiguousFrequency
deriving DecidableEq

/-- `normalize_with_pvwatts(energy, pvwatts_kws)` (lines 88–98): resolve
the energy frequency (explicit wins, else infer, else fail), model DC
power with PVWatts, resample-and-sum it at the energy frequency, and
divide the energy series by the resampled expected DC energy. -/
def normalize_with_pvwatts (energy : Series) (pvwatts_kws : PVWattsKws) :
    Except NormError Series :=
  match resolveFreq energy with
  | none => Except.error NormError.ambiguousFrequency
  | some freq =>
      let dc_power := pvwattsOf pvwatts_kws
      let energy_dc := resampleSum dc_power freq
      let normalized_energy := seriesDiv energy energy_dc
      Except.ok normalized_energy

/-- `normalize_with_sapm(energy, sapm_kws)` (lines 187–196): identical
shape to `normalize_with_pvwatts` with the SAPM DC model. -/
def normalize_with_sapm (energy : Series) (sapm_kws : SAPMKws) :
    Except NormError Series :=
  match resolveFreq energy with
  | none => Except.error NormError.ambiguousFrequency
  | some freq =>
      let dc_power := sapmOf sapm_kws
      let energy_dc := resampleSum dc_power freq
      let normalized_energy := seriesDiv energy energy_dc
      Except.ok normalized_energy

/-! ### Helper lemmas about the embedding -/

theorem mem_insertS (t x : Nat) (l : List Nat) : t ∈ insertS x l ↔ t = x ∨ t ∈ l := by
  induction l with
  | nil => simp [insertS]
  | cons y ys ih =>
    by_cases h1 : x < y
    · simp [insertS, h1]
    · by_cases h2 : x = y
      · subst h2; simp [insertS, h1]
      · simp [insertS, h1, h2, ih]; tauto

theorem mem_unionIdx (t : Nat) (xs ys : List Nat) :
    t ∈ unionIdx xs ys ↔ t ∈ xs ∨ t ∈ ys := by
  have key : ∀ (l acc : List Nat), t ∈ l.foldr insertS acc ↔ t ∈ l ∨ t ∈ acc := by
    intro l
    induction l with
    | nil => simp
    | cons a as ih => intro acc; simp [List.foldr, mem_insertS, ih acc]; tauto
  simpa [unionIdx, or_assoc] using key (xs ++ ys) []

/-- Value of the PVWatts model at any timestamp when the temperature
correction is inactive (one or both of `T_cell`, `gamma_pdc` missing). -/
theorem pvwatts_val_noTemp (poa : Series) (P G T : ℚ) (T_cell : Option Series)
    (g : Option ℚ) (h : T_cell = none ∨ g = none) (t : Nat) :
    (pvwatts_dc_power poa P T_cell G T g).val t =
      (poa.val t).map (fun v => P * v / G) := by
  have base : ∀ u, (divScalarSeries (smulSeries P poa) G).val u =
      (poa.val u).map (fun v => P * v / G) := by
    intro u
    cases hv : poa.val u <;> simp [divScalarSeries, smulSeries, hv]
  rcases h with h | h
  · subst h; cases g <;> simpa [pvwatts_dc_power] using base t
  · subst h; cases T_cell <;> simpa [pvwatts_dc_power] using base t

/-- Value of the PVWatts model at an aligned timestamp when the temperature
correction is active (both `T_cell` and `gamma_pdc` supplied). -/
theorem pvwatts_val_temp (poa tc : Series) (P G T g : ℚ) (t : Nat)
    (h1 : t ∈ poa.idx) (h2 : t ∈ tc.idx) (x y : ℚ)
    (hx : poa.val t = some x) (hy : tc.val t = some y) :
    (pvwatts_dc_power poa P (some tc) G T (some g)).val t =
      some (P * x / G * (1 + g * (y - T))) := by
  simp [pvwatts_dc_power, mulSeries, addScalarSeries, smulSeries, subScalarSeries,
    divScalarSeries, h1, h2, hx, hy]

/-! ### Concrete fixtures used by witnesses and the counterexample -/

/-- A constant irradiance series sampled at ticks 0 and 60. -/
def fixPoa : Series := { idx := [0, 60], val := fun _ => some 1, freq := none }

/-- PVWatts parameters with unit nameplate and unit reference irradiance. -/
def fixKws : PVWattsKws :=
  { poa_global := fixPoa, P_stc := 1, T_cell := none, G_stc := 1, T_stc := 25,
    gamma_pdc := none }

/-- A single-interval energy series with explicit frequency 60. -/
def fixEnergy1 : Series := { idx := [0], val := fun _ => some 1, freq := some 60 }

/-- An energy series with explicit frequency 60 whose spacing (10) would
infer differently. -/
def fixEnergy4 : Series := { idx := [0, 10, 20], val := fun _ => some 1, freq := some 60 }

/-- An energy series with no explicit frequency and irregular spacing. -/
def fixEnergy5 : Series := { idx := [0, 10, 25], val := fun _ => some 1, freq := none }

/-- An energy series whose timestamp 90 aligns with no modeled interval. -/
def fixEnergy6 : Series := { idx := [0, 60, 90], val := fun _ => some 1, freq := some 60 }

/-- First of two energy series sharing an index and frequency but not values. -/
def fixEnergy10a : Series := { idx := [0, 60], val := fun _ => some 2, freq := some 60 }

/-- Second of two energy series sharing an index and frequency but not values. -/
def fixEnergy10b : Series := { idx := [0, 60], val := fun _ => some 3, freq := some 60 }

/-- A cell-temperature series pinned at the reference temperature 25. -/
def fixTcStc : Series := { idx := [0, 1], val := fun _ => some 25, freq := none }

/-- An irradiance series pinned at the reference irradiance 1000. -/
def fixPoaStc : Series := { idx := [0, 1], val := fun _ => some 1000, freq := none }

/-- A negative irradiance sample (sensor offset at night). -/
def fixNegPoa : Series := { idx := [0], val := fun _ => some (-1), freq := none }

/-- An empty series, used for the trivial System Descriptor fixture. -/
def emptySeries : Series := { idx := [], val := fun _ => none, freq := none }

/-- A trivial System Descriptor whose operations all return empty frames. -/
def fixSystem : PVSystem :=
  { module := { tag := 0 }
    get_solarposition := fun _ => { zenith := emptySeries, azimuth := emptySeries }
    get_poa_global := fun _ _ _ _ _ =>
      { poa_direct := emptySeries, poa_diffuse := emptySeries, poa_global := emptySeries }
    get_aoi := fun _ _ => emptySeries
    get_airmass := fun _ _ => { airmass_absolute := emptySeries }
    sapm_effective_poa_global := fun _ _ _ _ _ _ => emptySeries
    sapm_celltemp := fun _ _ _ => { temp_cell := emptySeries }
    pvwatts_dc := fun _ _ => emptySeries }

/-- An empty meteorological frame. -/
def fixFrame : MeteoFrame :=
  { idx := [], DNI := emptySeries, GHI := emptySeries, DHI := emptySeries,
    WindSpeed := emptySeries, Temperature := emptySeries }

/-- SAPM keyword arguments built from the trivial fixtures. -/
def fixSkws : SAPMKws := { pvlib_pvsystem := fixSystem, poa_global := fixFrame }

/-! ### Claim theorems -/

/-- C2: for every irradiance series, nameplate power and reference
constants, calling `pvwatts_dc_power` with exactly one of `T_cell` and
`gamma_pdc` supplied returns a result identical to calling it with both
omitted; the temperature correction is all-or-nothing and partial
specification is silently ignored rather than raising an error. -/
theorem c2_partial_temperature_ignored (poa_global : Series) (P_stc : ℚ)
    (T_cell : Option Series) (G_stc T_stc : ℚ) (gamma_pdc : Option ℚ)
    (h : T_cell = none ∨ gamma_pdc = none) :
    pvwatts_dc_power poa_global P_stc T_cell G_stc T_stc gamma_pdc =
      pvwatts_dc_power poa_global P_stc none G_stc T_stc none := by
  rcases h with h | h
  · subst h; cases gamma_pdc <;> rfl
  · subst h; cases T_cell <;> rfl

/-- C2 witness: supplying only a cell-temperature series (no `gamma_pdc`)
leaves the output identical to omitting both temperature arguments. -/
theorem c2_witness :
    pvwatts_dc_power fixPoa 1 (some fixTcStc) 1 25 none =
      pvwatts_dc_power fixPoa 1 none 1 25 none :=
  c2_partial_temperature_ignored fixPoa 1 (some fixTcStc) 1 25 none (Or.inr rfl)

/-- C3: `pvwatts_dc_power` returns `P_stc * poa_global / G_stc` at every
timestamp when the temperature correction is inactive, and
`(P_stc * poa_global / G_stc) * (1 + gamma_pdc * (T_cell - T_stc))` at
every aligned timestamp when both `T_cell` and `gamma_pdc` are supplied;
no clamping or input-range validation is applied, so a negative irradiance
sample yields a negative output. -/
theorem c3_pvwatts_formula_no_clamping :
    (∀ (poa_global : Series) (P_stc G_stc T_stc : ℚ) (T_cell : Option Series)
        (gamma_pdc : Option ℚ), T_cell = none ∨ gamma_pdc = none →
      ∀ t, (pvwatts_dc_power poa_global P_stc T_cell G_stc T_stc gamma_pdc).val t =
        (poa_global.val t).map (fun v => P_stc * v / G_stc)) ∧
    (∀ (poa_global tc : Series) (P_stc G_stc T_stc g : ℚ) (t : Nat),
      t ∈ poa_global.idx → t ∈ tc.idx →
      ∀ x y, poa_global.val t = some x → tc.val t = some y →
      (pvwatts_dc_power poa_global P_stc (some tc) G_stc T_stc (some g)).val t =
        some (P_stc * x / G_stc * (1 + g * (y - T_stc)))) ∧
    (pvwatts_dc_power fixNegPoa 300 none 1000 25 none).val 0 = some (-3 / 10) ∧
    (-3 / 10 : ℚ) < 0 := by
  refine ⟨?_, ?_, ?_, by norm_num⟩
  · intro poa_global P_stc G_stc T_stc T_cell gamma_pdc h t
    exact pvwatts_val_noTemp poa_global P_stc G_stc T_stc T_cell gamma_pdc h t
  · intro poa_global tc P_stc G_stc T_stc g t h1 h2 x y hx hy
    exact pvwatts_val_temp poa_global tc P_stc G_stc T_stc g t h1 h2 x y hx hy
  · rw [pvwatts_val_noTemp fixNegPoa 300 1000 25 none none (Or.inl rfl) 0]
    norm_num [fixNegPoa]

/-- C3 witness: the inactive-temperature formula evaluated on a concrete
series. -/
theorem c3_witness :
    (pvwatts_dc_power fixPoa 300 none 1000 25 none).val 0 =
      (fixPoa.val 0).map (fun v => 300 * v / 1000) :=
  c3_pvwatts_formula_no_clamping.1 fixPoa 300 1000 25 none none (Or.inl rfl) 0

/-- C7: with `T_cell` and `gamma_pdc` omitted, `pvwatts_dc_power` is
exactly linear in irradiance: applying it to `k * poa_global` equals `k`
times applying it to `poa_global`, with all other arguments fixed, for
every non-negative irradiance series and every scalar `k`. -/
theorem c7_pvwatts_linear_in_irradiance (poa_global : Series)
    (P_stc G_stc T_stc k : ℚ)
    (hnn : ∀ t v, poa_global.val t = some v → 0 ≤ v) :
    pvwatts_dc_power (smulSeries k poa_global) P_stc none G_stc T_stc none =
      smulSeries k (pvwatts_dc_power poa_global P_stc none G_stc T_stc none) := by
  apply Series.ext'
  · rfl
  · funext t
    simp only [pvwatts_dc_power, smulSeries, divScalarSeries]
    cases poa_global.val t with
    | none => rfl
    | some v => simp only [Option.map_some']; congr 1; ring
  · rfl

/-- C7 witness: linearity at `k = 2` on a concrete series. -/
theorem c7_witness :
    pvwatts_dc_power (smulSeries 2 fixPoa) 300 none 1000 25 none =
      smulSeries 2 (pvwatts_dc_power fixPoa 300 none 1000 25 none) :=
  c7_pvwatts_linear_in_irradiance fixPoa 300 1000 25 2
    (fun t v h => by
      have hv : (1 : ℚ) = v := by injection h
      rw [← hv]; norm_num)

/-- C8: when `poa_global` equals `G_stc` at every sample and either the
temperature arguments are omitted or `T_cell` equals `T_stc` at every
sample (on the same index), `pvwatts_dc_power` returns exactly `P_stc` at
every sample. -/
theorem c8_stc_returns_nameplate (poa_global : Series) (P_stc G_stc T_stc : ℚ)
    (T_cell : Option Series) (gamma_pdc : Option ℚ)
    (hG : G_stc ≠ 0)
    (hpoa : ∀ t ∈ poa_global.idx, poa_global.val t = some G_stc)
    (htemp : (T_cell = none ∨ gamma_pdc = none) ∨
      ∃ tc, T_cell = some tc ∧ tc.idx = poa_global.idx ∧
        ∀ t ∈ poa_global.idx, tc.val t = some T_stc) :
    ∀ t ∈ poa_global.idx,
      (pvwatts_dc_power poa_global P_stc T_cell G_stc T_stc gamma_pdc).val t =
        some P_stc := by
  intro t ht
  rcases htemp with h | ⟨tc, rfl, hidx, htc⟩
  · rw [pvwatts_val_noTemp poa_global P_stc G_stc T_stc T_cell gamma_pdc h t,
      hpoa t ht, Option.map_some', mul_div_assoc, div_self hG, mul_one]
  · cases gamma_pdc with
    | none =>
        rw [pvwatts_val_noTemp poa_global P_stc G_stc T_stc (some tc) none
            (Or.inr rfl) t, hpoa t ht, Option.map_some', mul_div_assoc,
          div_self hG, mul_one]
    | some g =>
        have h2 : t ∈ tc.idx := hidx ▸ ht
        rw [pvwatts_val_temp poa_global tc P_stc G_stc T_stc g t ht h2 G_stc T_stc
            (hpoa t ht) (htc t ht), sub_self, mul_zero, add_zero, mul_one,
          mul_div_assoc, div_self hG, mul_one]

/-- C8 witness: irradiance pinned at 1000 = `G_stc` and cell temperature
pinned at 25 = `T_stc` with a nonzero temperature coefficient yield exactly
the 300 W nameplate. -/
theorem c8_witness :
    (pvwatts_dc_power fixPoaStc 300 (some fixTcStc) 1000 25 (some (-1 / 250))).val 0 =
      some 300 :=
  c8_stc_returns_nameplate fixPoaStc 300 1000 25 (some fixTcStc) (some (-1 / 250))
    (by norm_num) (fun t _ => rfl)
    (Or.inr ⟨fixTcStc, rfl, rfl, fun t _ => rfl⟩) 0 (by decide)

/-- C9: `sapm_dc_power` runs the System Descriptor's modeling operations in
the fixed seven-stage order of the specification — solar position from the
frame's index, plane-of-array irradiance from the three irradiance
components, angle of incidence, absolute air mass via the Kasten–Young
1989 model, effective plane-of-array irradiance normalized to a reference
of 1, cell temperature from total irradiance, wind speed and ambient
temperature, then DC power from effective irradiance and cell temperature
— each stage's output feeding the next, and returns the final DC power:
it coincides with the stage-by-stage pipeline `sapm_pipeline_spec` for
every System Descriptor and every meteorological frame. -/
theorem c9_sapm_pipeline_order (descriptor : PVSystem) (frame : MeteoFrame) :
    sapm_dc_power descriptor frame = sapm_pipeline_spec descriptor frame := rfl

/-- C1 counterexample: for a one-entry energy series with explicit
frequency 60 and an irradiance series spanning ticks 0 and 60, the
normalized series' index is `[0, 60]` — the resampled modeled DC energy
contributes a timestamp (60) absent from the energy index `[0]` — so the
output index is not exactly the input energy series' index. -/
theorem c1_index_counterexample :
    normalize_with_pvwatts fixEnergy1 fixKws =
      Except.ok (seriesDiv fixEnergy1 (resampleSum (pvwattsOf fixKws) 60)) ∧
    (seriesDiv fixEnergy1 (resampleSum (pvwattsOf fixKws) 60)).idx = [0, 60] ∧
    fixEnergy1.idx = [0] :=
  ⟨rfl, by decide, rfl⟩

/-- C1 (amended): for every energy series and parameter set accepted by
`normalize_with_pvwatts` or `normalize_with_sapm`, the returned normalized
series is indexed by the union of the input energy series' index and the
resampled modeled DC energy series' index — no energy timestamp is
removed, but entries (holding NaN) are added for timestamps present only
in the resampled modeled DC energy series. -/
theorem c1_index_union (energy : Series) (pvwatts_kws : PVWattsKws)
    (sapm_kws : SAPMKws) (f : Nat) (hres : resolveFreq energy = some f) :
    (normalize_with_pvwatts energy pvwatts_kws =
        Except.ok (seriesDiv energy (resampleSum (pvwattsOf pvwatts_kws) f)) ∧
      ∀ t, t ∈ (seriesDiv energy (resampleSum (pvwattsOf pvwatts_kws) f)).idx ↔
        t ∈ energy.idx ∨ t ∈ (resampleSum (pvwattsOf pvwatts_kws) f).idx) ∧
    (normalize_with_sapm energy sapm_kws =
        Except.ok (seriesDiv energy (resampleSum (sapmOf sapm_kws) f)) ∧
      ∀ t, t ∈ (seriesDiv energy (resampleSum (sapmOf sapm_kws) f)).idx ↔
        t ∈ energy.idx ∨ t ∈ (resampleSum (sapmOf sapm_kws) f).idx) := by
  refine ⟨⟨?_, ?_⟩, ?_, ?_⟩
  · simp [normalize_with_pvwatts, hres]
  · intro t; simp [seriesDiv, mem_unionIdx]
  · simp [normalize_with_sapm, hres]
  · intro t; simp [seriesDiv, mem_unionIdx]

/-- C1 witness: the amended index property instantiated on the
counterexample fixture at timestamp 60. -/
theorem c1_index_union_witness :
    normalize_with_pvwatts fixEnergy1 fixKws =
      Except.ok (seriesDiv fixEnergy1 (resampleSum (pvwattsOf fixKws) 60)) ∧
    (60 ∈ (seriesDiv fixEnergy1 (resampleSum (pvwattsOf fixKws) 60)).idx ↔
      60 ∈ fixEnergy1.idx ∨ 60 ∈ (resampleSum (pvwattsOf fixKws) 60).idx) :=
  ⟨((c1_index_union fixEnergy1 fixKws fixSkws 60 rfl).1).1,
   ((c1_index_union fixEnergy1 fixKws fixSkws 60 rfl).1).2 60⟩

/-- C4: in both `normalize_with_pvwatts` and `normalize_with_sapm`, an
explicitly set energy-series frequency is used verbatim for resampling
with no re-inference (whatever inference from timestamp spacing would
give); only when the explicit frequency is absent is the frequency
inferred from timestamp spacing. -/
theorem c4_explicit_freq_precedence (energy : Series) (pvwatts_kws : PVWattsKws)
    (sapm_kws : SAPMKws) :
    (∀ f, energy.freq = some f →
      normalize_with_pvwatts energy pvwatts_kws =
        Except.ok (seriesDiv energy (resampleSum (pvwattsOf pvwatts_kws) f)) ∧
      normalize_with_sapm energy sapm_kws =
        Except.ok (seriesDiv energy (resampleSum (sapmOf sapm_kws) f))) ∧
    (energy.freq = none → ∀ g, pd_infer_freq energy.idx = some g →
      normalize_with_pvwatts energy pvwatts_kws =
        Except.ok (seriesDiv energy (resampleSum (pvwattsOf pvwatts_kws) g)) ∧
      normalize_with_sapm energy sapm_kws =
        Except.ok (seriesDiv energy (resampleSum (sapmOf sapm_kws) g))) := by
  constructor
  · intro f hf
    have hres : resolveFreq energy = some f := by simp [resolveFreq, hf]
    constructor <;> simp [normalize_with_pvwatts, normalize_with_sapm, hres]
  · intro hf g hg
    have hres : resolveFreq energy = some g := by simp [resolveFreq, hf, hg]
    constructor <;> simp [normalize_with_pvwatts, normalize_with_sapm, hres]

/-- C4 witness: an energy series whose spacing would infer frequency 10 but
whose explicit frequency is 60 is resampled at 60 by both entry points. -/
theorem c4_witness :
    pd_infer_freq fixEnergy4.idx = some 10 ∧
    normalize_with_pvwatts fixEnergy4 fixKws =
      Except.ok (seriesDiv fixEnergy4 (resampleSum (pvwattsOf fixKws) 60)) ∧
    normalize_with_sapm fixEnergy4 fixSkws =
      Except.ok (seriesDiv fixEnergy4 (resampleSum (sapmOf fixSkws) 60)) :=
  ⟨by decide, (c4_explicit_freq_precedence fixEnergy4 fixKws fixSkws).1 60 rfl⟩

/-- C5: for every energy series with no explicit frequency whose timestamp
spacing admits no consistent inferred frequency, both normalization entry
points fail with the propagated AmbiguousFrequency-class error and return
no result. -/
theorem c5_ambiguous_frequency_error (energy : Series) (pvwatts_kws : PVWattsKws)
    (sapm_kws : SAPMKws) (h1 : energy.freq = none)
    (h2 : pd_infer_freq energy.idx = none) :
    normalize_with_pvwatts energy pvwatts_kws =
      Except.error NormError.ambiguousFrequency ∧
    normalize_with_sapm energy sapm_kws =
      Except.error NormError.ambiguousFrequency := by
  have hres : resolveFreq energy = none := by simp [resolveFreq, h1, h2]
  constructor <;> simp [normalize_with_pvwatts, normalize_with_sapm, hres]

/-- C5 witness: an energy series with gaps 10 and 15 and no explicit
frequency makes both entry points fail. -/
theorem c5_witness :
    normalize_with_pvwatts fixEnergy5 fixKws =
      Except.error NormError.ambiguousFrequency ∧
    normalize_with_sapm fixEnergy5 fixSkws =
      Except.error NormError.ambiguousFrequency :=
  c5_ambiguous_frequency_error fixEnergy5 fixKws fixSkws rfl (by decide)

/-- C6: once the frequency resolves, neither `normalize_with_pvwatts` nor
`normalize_with_sapm` raises: each returns a series whose entries at
energy timestamps aligned with no interval of the resampled modeled DC
energy are NaN (`none`), while aligned positions with a finite nonzero
modeled value carry the measured-over-modeled ratio. -/
theorem c6_misaligned_nan_gaps (energy : Series) (pvwatts_kws : PVWattsKws)
    (sapm_kws : SAPMKws) (f : Nat) (hres : resolveFreq energy = some f) :
    (normalize_with_pvwatts energy pvwatts_kws =
        Except.ok (seriesDiv energy (resampleSum (pvwattsOf pvwatts_kws) f)) ∧
      (∀ t ∈ energy.idx, t ∉ (resampleSum (pvwattsOf pvwatts_kws) f).idx →
        (seriesDiv energy (resampleSum (pvwattsOf pvwatts_kws) f)).val t = none) ∧
      (∀ t ∈ energy.idx, t ∈ (resampleSum (pvwattsOf pvwatts_kws) f).idx →
        ∀ x y, energy.val t = some x →
          (resampleSum (pvwattsOf pvwatts_kws) f).val t = some y → y ≠ 0 →
          (seriesDiv energy (resampleSum (pvwattsOf pvwatts_kws) f)).val t =
            some (x / y))) ∧
    (normalize_with_sapm energy sapm_kws =
        Except.ok (seriesDiv energy (resampleSum (sapmOf sapm_kws) f)) ∧
      (∀ t ∈ energy.idx, t ∉ (resampleSum (sapmOf sapm_kws) f).idx →
        (seriesDiv energy (resampleSum (sapmOf sapm_kws) f)).val t = none) ∧
      (∀ t ∈ energy.idx, t ∈ (resampleSum (sapmOf sapm_kws) f).idx →
        ∀ x y, energy.val t = some x →
          (resampleSum (sapmOf sapm_kws) f).val t = some y → y ≠ 0 →
          (seriesDiv energy (resampleSum (sapmOf sapm_kws) f)).val t =
            some (x / y))) := by
  refine ⟨⟨?_, ?_, ?_⟩, ?_, ?_, ?_⟩
  · simp [normalize_with_pvwatts, hres]
  · intro t ht hnot
    simp [seriesDiv, hnot]
  · intro t ht hin x y hx hy hy0
    simp [seriesDiv, ht, hin, hx, hy, hy0]
  · simp [normalize_with_sapm, hres]
  · intro t ht hnot
    simp [seriesDiv, hnot]
  · intro t ht hin x y hx hy hy0
    simp [seriesDiv, ht, hin, hx, hy, hy0]

/-- C6 witness: timestamp 90 of the energy series aligns with no modeled
interval and gets a NaN entry under both entry points; both calls still
succeed. -/
theorem c6_witness :
    normalize_with_pvwatts fixEnergy6 fixKws =
      Except.ok (seriesDiv fixEnergy6 (resampleSum (pvwattsOf fixKws) 60)) ∧
    (seriesDiv fixEnergy6 (resampleSum (pvwattsOf fixKws) 60)).val 90 = none ∧
    normalize_with_sapm fixEnergy6 fixSkws =
      Except.ok (seriesDiv fixEnergy6 (resampleSum (sapmOf fixSkws) 60)) ∧
    (seriesDiv fixEnergy6 (resampleSum (sapmOf fixSkws) 60)).val 90 = none :=
  ⟨(c6_misaligned_nan_gaps fixEnergy6 fixKws fixSkws 60 rfl).1.1,
   (c6_misaligned_nan_gaps fixEnergy6 fixKws fixSkws 60 rfl).1.2.1 90
     (by decide) (by decide),
   (c6_misaligned_nan_gaps fixEnergy6 fixKws fixSkws 60 rfl).2.1,
   (c6_misaligned_nan_gaps fixEnergy6 fixKws fixSkws 60 rfl).2.2.1 90
     (by decide) (by decide)⟩

/-- C10: in `normalize_with_pvwatts` the expected DC energy denominator
depends only on the energy series' index and explicit frequency (through
the resolved frequency) and on `pvwatts_kws`, never on the energy values:
two energy series with identical index and frequency attribute and the
same `pvwatts_kws` are divided by the very same denominator series, and
each output entry is the energy value divided by that common denominator
value. -/
theorem c10_denominator_value_independence (e1 e2 : Series)
    (pvwatts_kws : PVWattsKws) (f : Nat) (hidx : e1.idx = e2.idx)
    (hfreq : e1.freq = e2.freq) (hres : resolveFreq e1 = some f) :
    normalize_with_pvwatts e1 pvwatts_kws =
      Except.ok (seriesDiv e1 (resampleSum (pvwattsOf pvwatts_kws) f)) ∧
    normalize_with_pvwatts e2 pvwatts_kws =
      Except.ok (seriesDiv e2 (resampleSum (pvwattsOf pvwatts_kws) f)) ∧
    (∀ t ∈ e1.idx, ∀ x y, t ∈ (resampleSum (pvwattsOf pvwatts_kws) f).idx →
      e1.val t = some x → (resampleSum (pvwattsOf pvwatts_kws) f).val t = some y →
      y ≠ 0 →
      (seriesDiv e1 (resampleSum (pvwattsOf pvwatts_kws) f)).val t =
        some (x / y)) := by
  have hres2 : resolveFreq e2 = some f := by
    unfold resolveFreq at hres ⊢
    rw [← hidx, ← hfreq]
    exact hres
  refine ⟨?_, ?_, ?_⟩
  · simp [normalize_with_pvwatts, hres]
  · simp [normalize_with_pvwatts, hres2]
  · intro t ht x y hin hx hy hy0
    simp [seriesDiv, ht, hin, hx, hy, hy0]

/-- C10 witness: two energy series sharing index `[0, 60]` and frequency 60
but holding different values are both divided by the same resampled
denominator series. -/
theorem c10_witness :
    normalize_with_pvwatts fixEnergy10a fixKws =
      Except.ok (seriesDiv fixEnergy10a (resampleSum (pvwattsOf fixKws) 60)) ∧
    normalize_with_pvwatts fixEnergy10b fixKws =
      Except.ok (seriesDiv fixEnergy10b (resampleSum (pvwattsOf fixKws) 60)) :=
  ⟨(c10_denominator_value_independence fixEnergy10a fixEnergy10b fixKws 60
      rfl rfl rfl).1,
   (c10_denominator_value_independence fixEnergy10a fixEnergy10b fixKws 60
      rfl rfl rfl).2.1⟩
